import Mathlib

/-!
Shallow embedding of arush-sal/repo-protection-sync (Go).

The program propagates the branch-protection configuration of a source
repository to every repository of a GitHub owner.  The parts embedded
here are the pure/stateful cores the claims are about:

  * `helpers.HTTPStatusCodeCheck` (src/pkg/helpers/helpers.go),
  * the setter package (src/unnamed/part_001): `SetRuleset`,
    `checkAndHandleRateLimit`, `setBranchProtectionRules`,
    `convertProtectionToRequest`,
    `convertPRDismissalRestrictionsToRequest`,
    `convertProtectionRestrictionToRequest`,
  * `getter.getDefaultBranch` (src/pkg/getter/getter.go).

Go pointers become `Option`; a nil-pointer dereference (a panic) and a
`log.Fatal`/`log.Fatalf` call (`os.Exit(1)`) are both modelled as an
explicit crash/fatal result, since either one terminates the process.
The external GitHub client is modelled as a behaviour record `Api`; time
is an explicit `Int` threaded through the rate-limit wait.  The parallel
goroutine loop of `SetRuleset` is modelled as a sequential fold over the
target list (one admissible schedule); a `log.Fatalf` inside any task
kills the whole process, which the fold models by stopping with
`fatalExit`.
-/

namespace RepoProtectionSync

/-! ## Data model (go-github structs, pointers as Option) -/

/-- github.Repository, restricted to the fields the setter reads
(Name and DefaultBranch, both pointers). -/
structure Repository where
  name : Option String
  defaultBranch : Option String
  deriving Repr, DecidableEq

/-- github.User (only Login is read, via GetLogin which yields the zero
value for nil). -/
structure GUser where
  login : Option String
  deriving Repr, DecidableEq

/-- github.Team (only Slug is read, via GetSlug). -/
structure GTeam where
  slug : Option String
  deriving Repr, DecidableEq

/-- github.App (only Slug is read, via GetSlug). -/
structure GApp where
  slug : Option String
  deriving Repr, DecidableEq

/-- user.GetLogin(): zero value for nil receiver field. -/
def GUser.getLogin (u : GUser) : String := u.login.getD ""

/-- team.GetSlug(). -/
def GTeam.getSlug (t : GTeam) : String := t.slug.getD ""

/-- app.GetSlug(). -/
def GApp.getSlug (a : GApp) : String := a.slug.getD ""

/-- github.RequiredStatusChecks (treated as an opaque value that is
copied wholesale by the converter). -/
structure RequiredStatusChecks where
  strict : Bool
  contexts : List String
  deriving Repr, DecidableEq

/-- github.DismissalRestrictions. -/
structure DismissalRestrictions where
  users : List GUser
  teams : List GTeam
  deriving Repr, DecidableEq

/-- github.PullRequestReviewsEnforcement, restricted to the fields the
converter reads. -/
structure PullRequestReviewsEnforcement where
  dismissStaleReviews : Bool
  requireCodeOwnerReviews : Bool
  requiredApprovingReviewCount : Int
  dismissalRestrictions : Option DismissalRestrictions
  deriving Repr, DecidableEq

/-- a sub-object holding a single Enabled flag: stands for
github.AdminEnforcement, RequireLinearHistory, AllowForcePushes,
AllowDeletions and RequiredConversationResolution, each of which the
converter reads only through .Enabled. -/
structure EnabledSetting where
  enabled : Bool
  deriving Repr, DecidableEq

/-- github.BranchRestrictions. -/
structure BranchRestrictions where
  users : List GUser
  teams : List GTeam
  apps : List GApp
  deriving Repr, DecidableEq

/-- github.Protection — the read-side configuration.  Every field is a
pointer in Go, hence an Option here. -/
structure Protection where
  requiredStatusChecks : Option RequiredStatusChecks
  requiredPullRequestReviews : Option PullRequestReviewsEnforcement
  enforceAdmins : Option EnabledSetting
  restrictions : Option BranchRestrictions
  requireLinearHistory : Option EnabledSetting
  allowForcePushes : Option EnabledSetting
  allowDeletions : Option EnabledSetting
  requiredConversationResolution : Option EnabledSetting
  deriving Repr, DecidableEq

/-- github.DismissalRestrictionsRequest: Users and Teams are *[]string,
so a nil field (None) means "omitted" while Some [] means "present and
empty". -/
structure DismissalRestrictionsRequest where
  users : Option (List String)
  teams : Option (List String)
  deriving Repr, DecidableEq

/-- github.PullRequestReviewsEnforcementRequest. -/
structure PullRequestReviewsEnforcementRequest where
  dismissalRestrictionsRequest : Option DismissalRestrictionsRequest
  dismissStaleReviews : Bool
  requireCodeOwnerReviews : Bool
  requiredApprovingReviewCount : Int
  deriving Repr, DecidableEq

/-- github.BranchRestrictionsRequest: Users/Teams/Apps are plain
[]string. -/
structure BranchRestrictionsRequest where
  users : List String
  teams : List String
  apps : List String
  deriving Repr, DecidableEq

/-- github.ProtectionRequest — the write-side payload.  RequireLinearHistory
and the three flags after it are *bool in Go (None = field omitted). -/
structure ProtectionRequest where
  requiredStatusChecks : Option RequiredStatusChecks
  requiredPullRequestReviews : Option PullRequestReviewsEnforcementRequest
  enforceAdmins : Bool
  restrictions : Option BranchRestrictionsRequest
  requireLinearHistory : Option Bool
  allowForcePushes : Option Bool
  allowDeletions : Option Bool
  requiredConversationResolution : Option Bool
  deriving Repr, DecidableEq

/-! ## helpers.HTTPStatusCodeCheck (src/pkg/helpers/helpers.go, 26-91) -/

/-- result of a Go function that may return error, return nil, or kill
the process via log.Fatal / a panic. -/
inductive CheckResult
  | ok
  | err (msg : String)
  | fatal (msg : String)
  deriving Repr, DecidableEq

/-- helpers.HTTPStatusCodeCheck.  Source fidelity note: the Go switch
cases 400, 401, 405, 406, 409 and 410 contain only `break`, which in Go
merely leaves the switch, after which the function returns nil — so
those statuses yield `ok` here.  The default case calls log.Fatalf. -/
def HTTPStatusCodeCheck (statuscode : Nat) : CheckResult :=
  match statuscode with
  | 200 => .ok
  | 201 => .ok
  | 303 => .err "same branch name pattern already exists"
  | 400 => .ok
  | 401 => .ok
  | 403 => .err "Forbidden"
  | 404 => .err "resource not found"
  | 405 => .ok
  | 406 => .ok
  | 409 => .ok
  | 410 => .ok
  | 422 => .err "Validation failed, or the endpoint has been spammed"
  | _ => .fatal "HTTP request failed with status code"

/-! ## The protection translator (src/unnamed/part_001, 119-244) -/

/-- convertPRDismissalRestrictionsToRequest (part_001, 174-201): both
branches of each length test produce a present (Some) list, empty when
the source list is empty. -/
def convertPRDismissalRestrictionsToRequest (dr : DismissalRestrictions) :
    DismissalRestrictionsRequest :=
  { users :=
      if dr.users.length > 0 then
        some (dr.users.map GUser.getLogin)
      else
        some []
    teams :=
      if dr.teams.length > 0 then
        some (dr.teams.map GTeam.getSlug)
      else
        some [] }

/-- convertProtectionRestrictionToRequest (part_001, 204-244). -/
def convertProtectionRestrictionToRequest (br : BranchRestrictions) :
    BranchRestrictionsRequest :=
  { users :=
      if br.users.length > 0 then br.users.map GUser.getLogin else []
    teams :=
      if br.teams.length > 0 then br.teams.map GTeam.getSlug else []
    apps :=
      if br.apps.length > 0 then br.apps.map GApp.getSlug else [] }

/-- convertProtectionToRequest (part_001, 119-171).  Returns none when
the Go function does not return: log.Fatal on a nil Protection (line
121), and a nil-pointer dereference panic on lines 165-168, which read
protection.RequireLinearHistory.Enabled, .AllowForcePushes.Enabled,
.AllowDeletions.Enabled and .RequiredConversationResolution.Enabled
without a nil check. -/
def convertProtectionToRequest (protection : Option Protection) :
    Option ProtectionRequest :=
  match protection with
  | none => none
  | some p =>
    match p.requireLinearHistory, p.allowForcePushes,
        p.allowDeletions, p.requiredConversationResolution with
    | some rlh, some afp, some ad, some rcr =>
      some
        { requiredStatusChecks := p.requiredStatusChecks
          requiredPullRequestReviews :=
            match p.requiredPullRequestReviews with
            | some prr =>
              some
                { dismissStaleReviews := prr.dismissStaleReviews
                  requireCodeOwnerReviews := prr.requireCodeOwnerReviews
                  requiredApprovingReviewCount :=
                    prr.requiredApprovingReviewCount
                  dismissalRestrictionsRequest :=
                    prr.dismissalRestrictions.map
                      convertPRDismissalRestrictionsToRequest }
            | none =>
              some
                { dismissStaleReviews := false
                  requireCodeOwnerReviews := false
                  requiredApprovingReviewCount := 0
                  dismissalRestrictionsRequest := none }
          enforceAdmins :=
            match p.enforceAdmins with
            | some ea => ea.enabled
            | none => false
          restrictions :=
            match p.restrictions with
            | some br => some (convertProtectionRestrictionToRequest br)
            | none => some { users := [], teams := [], apps := [] }
          requireLinearHistory := some rlh.enabled
          allowForcePushes := some afp.enabled
          allowDeletions := some ad.enabled
          requiredConversationResolution := some rcr.enabled }
    | _, _, _, _ => none

/-! ## The sync engine (src/unnamed/part_001, 28-116) -/

/-- rateLimits.Core: remaining budget and reset time (seconds). -/
structure RateLimitInfo where
  remaining : Int
  reset : Int
  deriving Repr, DecidableEq

/-- the external GitHub client, as the behaviour the setter observes:
the rate-limit accounting call, and the mutating update call per
(repo, branch), which either fails in transport (error) or yields an
HTTP status code. -/
structure Api where
  rateLimits : Except String RateLimitInfo
  updateBranchProtection : String → String → Except String Nat

/-- observable actions of one apply task, for stating ordering
properties: the rate-limit query and the mutating apply call, the
latter stamped with the task-local time at which it is issued. -/
inductive Event
  | rateQuery
  | applyCall (repo branch : String) (time : Int)
  deriving Repr, DecidableEq

/-- per-target result, as logged by the Go code: a successful apply, a
skip for missing identifying fields (part_001, 50-53), or the skip in
the unreachable false branch of the rate-limit check (part_001, 56-59).
The Go code has no recorded failed outcome: apply errors go to
log.Fatalf. -/
inductive ApplyOutcome
  | applied
  | skippedInvalid
  | skippedRateLimit
  deriving Repr, DecidableEq

/-- what one task does to the process: finish with an outcome, or kill
the whole process via log.Fatalf. -/
inductive TaskResult
  | outcome (o : ApplyOutcome)
  | fatal (msg : String)
  deriving Repr, DecidableEq

/-- checkAndHandleRateLimit (part_001, 83-98).  Takes the current time,
returns the Go boolean together with the time after any sleep.  On a
failed budget query the Go code calls log.Fatalf (the `return false`
after it is dead code).  When remaining < 1 it sleeps
time.Until(reset) + 1 second; time.Sleep returns immediately for a
non-positive duration, hence the max with 0. -/
def checkAndHandleRateLimit (api : Api) (now : Int) :
    Except String (Bool × Int) :=
  match api.rateLimits with
  | .error e => .error ("Failed to fetch rate limit: " ++ e)
  | .ok rl =>
    if rl.remaining < 1 then
      let waitDuration := rl.reset - now
      .ok (true, now + max (waitDuration + 1) 0)
    else
      .ok (true, now)

/-- setBranchProtectionRules (part_001, 101-116): issue the update call;
on a transport error log.Fatalf (fatal); otherwise return
HTTPStatusCodeCheck of the response status (whose default case is
itself fatal).  `.ok none` is a nil error, `.ok (some m)` a non-nil
error returned to the caller. -/
def setBranchProtectionRules (api : Api) (repo branch : String) :
    Except String (Option String) :=
  match api.updateBranchProtection repo branch with
  | .error e => .error ("Error applying branch protection: " ++ e)
  | .ok status =>
    match HTTPStatusCodeCheck status with
    | .ok => .ok none
    | .err m => .ok (some m)
    | .fatal m => .error m

/-- the body of one goroutine of SetRuleset (part_001, 46-74): validate
the target, query and handle the rate limit, translate the ruleset and
apply it.  Returns the task result, the events it emitted, and the time
at which it finished.  A nil ruleset or a converter panic
(convertProtectionToRequest = none) is fatal; a non-nil error from
setBranchProtectionRules hits the log.Fatalf on line 69. -/
def processRepo (api : Api) (ruleset : Option Protection)
    (now : Int) (repo : Option Repository) :
    TaskResult × List Event × Int :=
  match repo with
  | none => (.outcome .skippedInvalid, [], now)
  | some r =>
    match r.name, r.defaultBranch with
    | some repoName, some branch =>
      match checkAndHandleRateLimit api now with
      | .error e => (.fatal e, [.rateQuery], now)
      | .ok (ok, now2) =>
        if !ok then
          (.outcome .skippedRateLimit, [.rateQuery], now2)
        else
          match convertProtectionToRequest ruleset with
          | none => (.fatal "Protection object is nil", [.rateQuery], now2)
          | some _ =>
            match setBranchProtectionRules api repoName branch with
            | .error e =>
              (.fatal e, [.rateQuery, .applyCall repoName branch now2], now2)
            | .ok none =>
              (.outcome .applied,
                [.rateQuery, .applyCall repoName branch now2], now2)
            | .ok (some m) =>
              (.fatal ("Error applying branch protection to repo " ++
                  repoName ++ ": " ++ m),
                [.rateQuery, .applyCall repoName branch now2], now2)
    | _, _ => (.outcome .skippedInvalid, [], now)

/-- result of a whole run of SetRuleset: either every task finished and
the outcomes are collected, or some task called log.Fatalf and the
process died, keeping only the outcomes and events produced before. -/
inductive RunResult
  | completed (outcomes : List ApplyOutcome) (events : List Event)
  | fatalExit (msg : String) (outcomes : List ApplyOutcome)
      (events : List Event)
  deriving Repr, DecidableEq

/-- the semaphore sizing of SetRuleset (part_001, 32-38): one tenth of
the number of repos (integer division), with a minimum of 1. -/
def semaphoreCount (repos : List (Option Repository)) : Nat :=
  let c := repos.length / 10
  if c < 1 then 1 else c

/-- the loop of SetRuleset over the targets, as a sequential fold (one
admissible schedule of the goroutines): each task runs via processRepo;
a fatal task kills the process, dropping the remaining targets. -/
def SetRulesetGo (api : Api) (ruleset : Option Protection) :
    List (Option Repository) → Int → List ApplyOutcome → List Event →
    RunResult
  | [], _, outs, evs => .completed outs evs
  | repo :: rest, now, outs, evs =>
    match processRepo api ruleset now repo with
    | (.outcome o, evs2, now2) =>
      SetRulesetGo api ruleset rest now2 (outs ++ [o]) (evs ++ evs2)
    | (.fatal m, evs2, _) => .fatalExit m outs (evs ++ evs2)

/-- SetRuleset (part_001, 30-78). -/
def SetRuleset (api : Api) (ruleset : Option Protection)
    (repos : List (Option Repository)) (now : Int) : RunResult :=
  SetRulesetGo api ruleset repos now [] []

/-! ## getter.getDefaultBranch (src/pkg/getter/getter.go, 28-34) -/

/-- result of a Go call that may return a value, return an error, or
panic. -/
inductive FetchResult (α : Type)
  | ok (a : α)
  | err (e : String)
  | crash
  deriving Repr, DecidableEq

/-- getter.getDefaultBranch: on a failed metadata call it returns the
error; on success it returns *repository.DefaultBranch, dereferencing
the pointer without a nil check — a nil DefaultBranch panics. -/
def getDefaultBranch (resp : Except String Repository) :
    FetchResult String :=
  match resp with
  | .error e => .err e
  | .ok repository =>
    match repository.defaultBranch with
    | none => .crash
    | some b => .ok b

/-! ## Concrete fixtures -/

/-- a fully populated source configuration (all flag sub-objects
present), so that the converter does not hit the nil dereference. -/
def fullRuleset : Protection :=
  { requiredStatusChecks := none
    requiredPullRequestReviews := none
    enforceAdmins := some { enabled := true }
    restrictions := none
    requireLinearHistory := some { enabled := false }
    allowForcePushes := some { enabled := false }
    allowDeletions := some { enabled := false }
    requiredConversationResolution := some { enabled := false } }

/-- a valid target repository. -/
def repoAlpha : Option Repository :=
  some { name := some "alpha", defaultBranch := some "main" }

/-- a second valid target repository. -/
def repoBeta : Option Repository :=
  some { name := some "beta", defaultBranch := some "main" }

/-- a client with plenty of budget whose update call always answers
HTTP 404. -/
def notFoundApi : Api :=
  { rateLimits := .ok { remaining := 100, reset := 0 }
    updateBranchProtection := fun _ _ => .ok 404 }

/-- a client with plenty of budget whose update call always answers
HTTP 303. -/
def conflictApi : Api :=
  { rateLimits := .ok { remaining := 100, reset := 0 }
    updateBranchProtection := fun _ _ => .ok 303 }

/-- a client with plenty of budget whose update call always answers
HTTP 200. -/
def okApi : Api :=
  { rateLimits := .ok { remaining := 100, reset := 0 }
    updateBranchProtection := fun _ _ => .ok 200 }

/-- a client whose budget is exhausted (remaining 0, reset at time 50)
and whose update call answers HTTP 200. -/
def exhaustedApi : Api :=
  { rateLimits := .ok { remaining := 0, reset := 50 }
    updateBranchProtection := fun _ _ => .ok 200 }

/-- a configuration whose review section is present but whose
dismissal-restriction section is absent, and whose access-restriction
section is absent. -/
def cfgNoDismissal : Protection :=
  { requiredStatusChecks := none
    requiredPullRequestReviews :=
      some { dismissStaleReviews := true
             requireCodeOwnerReviews := false
             requiredApprovingReviewCount := 2
             dismissalRestrictions := none }
    enforceAdmins := some { enabled := true }
    restrictions := none
    requireLinearHistory := some { enabled := true }
    allowForcePushes := some { enabled := false }
    allowDeletions := some { enabled := false }
    requiredConversationResolution := some { enabled := true } }

/-- a configuration whose linear-history sub-object is absent while the
other three dereferenced flags are present. -/
def cfgNoLinearHistory : Protection :=
  { requiredStatusChecks := none
    requiredPullRequestReviews := none
    enforceAdmins := none
    restrictions := none
    requireLinearHistory := none
    allowForcePushes := some { enabled := false }
    allowDeletions := some { enabled := false }
    requiredConversationResolution := some { enabled := false } }

/-! ## Helper lemmas -/

/-- a completed run of the SetRuleset loop extends the accumulated
outcome list by exactly one outcome per remaining target. -/
theorem setRulesetGo_completed_length (api : Api)
    (ruleset : Option Protection) :
    ∀ (repos : List (Option Repository)) (now : Int)
      (acc : List ApplyOutcome) (evs : List Event)
      (outs : List ApplyOutcome) (evs2 : List Event),
      SetRulesetGo api ruleset repos now acc evs =
        RunResult.completed outs evs2 →
      outs.length = acc.length + repos.length := by
  intro repos
  induction repos with
  | nil =>
    intro now acc evs outs evs2 h
    simp only [SetRulesetGo, RunResult.completed.injEq] at h
    simp [h.1]
  | cons repo rest ih =>
    intro now acc evs outs evs2 h
    simp only [SetRulesetGo] at h
    rcases hp : processRepo api ruleset now repo with ⟨tr, evs3, now2⟩
    rw [hp] at h
    cases tr with
    | outcome o =>
      have hlen := ih now2 (acc ++ [o]) (evs ++ evs3) outs evs2 h
      simp only [List.length_append, List.length_cons,
        List.length_nil] at hlen ⊢
      omega
    | fatal m => exact absurd h (by simp)

/-! ## Claims -/

/-- C1: the claim states that a failing apply call is recorded as
failed(reason) for that target only and the run continues.  The code
instead calls log.Fatalf on a non-nil apply error (part_001, 69),
killing the process: here, with two valid targets and every update
answering HTTP 404, the run ends in a fatal exit after the first
target, no failed outcome is recorded, and the second target (beta) is
never applied — its apply call is absent from the event trace. -/
theorem c1_apply_failure_kills_run :
    SetRuleset notFoundApi (some fullRuleset) [repoAlpha, repoBeta] 0 =
      RunResult.fatalExit
        "Error applying branch protection to repo alpha: resource not found"
        [] [Event.rateQuery, Event.applyCall "alpha" "main" 0] := by
  decide

/-- C3: the concurrency limit computed by SetRuleset equals
max 1 (N / 10), and any list of fewer than 10 targets gets limit 1. -/
theorem c3_concurrency_limit (repos : List (Option Repository)) :
    semaphoreCount repos = max 1 (repos.length / 10) ∧
    (repos.length < 10 → semaphoreCount repos = 1) := by
  simp only [semaphoreCount]
  constructor
  · split <;> omega
  · intro h
    split <;> omega

/-- C3 witness: the theorem applied to a concrete 25-target list. -/
theorem c3_concurrency_limit_witness :
    semaphoreCount (List.replicate 25 (none : Option Repository)) =
      max 1 ((List.replicate 25 (none : Option Repository)).length / 10) ∧
    ((List.replicate 25 (none : Option Repository)).length < 10 →
      semaphoreCount (List.replicate 25 (none : Option Repository)) = 1) := by
  have h := c3_concurrency_limit (List.replicate 25 none)
  simpa using h

/-- C6: the claim states that translation succeeds when any of the
enforce-admins, linear-history, force-push, deletion or
conversation-resolution sub-objects is absent, treating the feature as
disabled.  That holds for enforce-admins only: lines 165-168 of
part_001 dereference the linear-history pointer (and the three after
it) without a nil check, so a configuration with an absent
linear-history sub-object crashes the process instead of translating. -/
theorem c6_nil_linear_history_crashes :
    convertProtectionToRequest (some cfgNoLinearHistory) = none := by
  decide

/-- C9: the claim states that statuses 400, 401, 405, 406, 409 and 410
are classified as failures (non-nil error).  In the code each of these
switch cases contains only `break`, which in Go exits the switch, after
which the function returns nil: all six statuses are classified as
success. -/
theorem c9_break_statuses_return_nil :
    HTTPStatusCodeCheck 400 = CheckResult.ok ∧
    HTTPStatusCodeCheck 401 = CheckResult.ok ∧
    HTTPStatusCodeCheck 405 = CheckResult.ok ∧
    HTTPStatusCodeCheck 406 = CheckResult.ok ∧
    HTTPStatusCodeCheck 409 = CheckResult.ok ∧
    HTTPStatusCodeCheck 410 = CheckResult.ok := by
  decide

/-- C10: when the repository-metadata call succeeds but the returned
repository carries no default branch, getDefaultBranch dereferences the
nil pointer and crashes instead of returning an error. -/
theorem c10_nil_default_branch_crashes (repository : Repository)
    (h : repository.defaultBranch = none) :
    getDefaultBranch (Except.ok repository) = FetchResult.crash := by
  simp [getDefaultBranch, h]

/-- C10 witness: the theorem applied to a concrete repository with no
default branch. -/
theorem c10_nil_default_branch_crashes_witness :
    getDefaultBranch
        (Except.ok { name := some "src", defaultBranch := none }) =
      FetchResult.crash :=
  c10_nil_default_branch_crashes { name := some "src", defaultBranch := none }
    rfl

/-- a client with plenty of budget whose update call always answers
HTTP 422. -/
def invalidApi : Api :=
  { rateLimits := .ok { remaining := 100, reset := 0 }
    updateBranchProtection := fun _ _ => .ok 422 }

/-- C2 counterexample: the claim states that every run over N targets
produces exactly N outcomes, one per target, none skipped silently.
With two valid targets and every update answering HTTP 422, the first
task hits log.Fatalf and the process dies: the run ends with zero
recorded outcomes for two input targets. -/
theorem c2_counterexample :
    SetRuleset invalidApi (some fullRuleset) [repoAlpha, repoBeta] 0 =
      RunResult.fatalExit
        "Error applying branch protection to repo alpha: Validation failed, or the endpoint has been spammed"
        [] [Event.rateQuery, Event.applyCall "alpha" "main" 0] ∧
    [repoAlpha, repoBeta].length = 2 := by
  refine ⟨by decide, rfl⟩

/-- C2 amended: whenever SetRuleset completes without a fatal process
exit, it produces exactly one outcome per input target (the outcome
list has length N); but an apply failure kills the process, in which
case the remaining targets yield no outcome at all. -/
theorem c2_completed_run_one_outcome_per_target (api : Api)
    (ruleset : Option Protection) (repos : List (Option Repository))
    (now : Int) (outs : List ApplyOutcome) (evs : List Event)
    (h : SetRuleset api ruleset repos now = RunResult.completed outs evs) :
    outs.length = repos.length := by
  have hlen :=
    setRulesetGo_completed_length api ruleset repos now [] [] outs evs h
  simpa using hlen

/-- C2 witness: the amended theorem applied to a completing two-target
run. -/
theorem c2_completed_run_one_outcome_per_target_witness :
    ([ApplyOutcome.applied, ApplyOutcome.applied] :
        List ApplyOutcome).length = [repoAlpha, repoBeta].length :=
  c2_completed_run_one_outcome_per_target okApi (some fullRuleset)
    [repoAlpha, repoBeta] 0
    [ApplyOutcome.applied, ApplyOutcome.applied]
    [Event.rateQuery, Event.applyCall "alpha" "main" 0,
      Event.rateQuery, Event.applyCall "beta" "main" 0]
    (by decide)

/-- C4 counterexample: the claim states that an absent
dismissal-restriction section translates to present-and-empty user and
team lists.  On a configuration whose review section is present but
whose dismissal-restriction section is absent, the converter leaves
DismissalRestrictionsRequest nil (an omitted field), not
present-and-empty. -/
theorem c4_counterexample :
    convertProtectionToRequest (some cfgNoDismissal) =
      some
        { requiredStatusChecks := none
          requiredPullRequestReviews :=
            some
              { dismissalRestrictionsRequest := none
                dismissStaleReviews := true
                requireCodeOwnerReviews := false
                requiredApprovingReviewCount := 2 }
          enforceAdmins := true
          restrictions := some { users := [], teams := [], apps := [] }
          requireLinearHistory := some true
          allowForcePushes := some false
          allowDeletions := some false
          requiredConversationResolution := some true } := by
  decide

/-- C4 amended: when the access-restriction section is absent the
payload carries an explicit empty-restrictions object with empty
users/teams/apps lists; but when the dismissal-restriction section is
absent, the dismissal field of the payload is omitted (nil), not
present-and-empty.  (The flag sub-objects read on part_001 lines
165-168 must be present for the converter to return at all.) -/
theorem c4_absent_sections (p : Protection)
    (rlh afp ad rcr : EnabledSetting)
    (h1 : p.requireLinearHistory = some rlh)
    (h2 : p.allowForcePushes = some afp)
    (h3 : p.allowDeletions = some ad)
    (h4 : p.requiredConversationResolution = some rcr) :
    (p.restrictions = none →
      (convertProtectionToRequest (some p)).map
          ProtectionRequest.restrictions =
        some (some { users := [], teams := [], apps := [] })) ∧
    (∀ prr, p.requiredPullRequestReviews = some prr →
      prr.dismissalRestrictions = none →
      (convertProtectionToRequest (some p)).map
          (fun req => req.requiredPullRequestReviews.map
            PullRequestReviewsEnforcementRequest.dismissalRestrictionsRequest) =
        some (some none)) := by
  constructor
  · intro hres
    simp [convertProtectionToRequest, h1, h2, h3, h4, hres]
  · intro prr hprr hdr
    simp [convertProtectionToRequest, h1, h2, h3, h4, hprr, hdr]

/-- C4 witness: the amended theorem applied to the concrete
configuration with both sections absent. -/
theorem c4_absent_sections_witness :
    (convertProtectionToRequest (some cfgNoDismissal)).map
        ProtectionRequest.restrictions =
      some (some { users := [], teams := [], apps := [] }) :=
  (c4_absent_sections cfgNoDismissal { enabled := true }
      { enabled := false } { enabled := false } { enabled := true }
      rfl rfl rfl rfl).1 rfl

/-- C5 counterexample: the claim states that a 303 response (pattern
already exists) is recorded as applied and the run continues.  The
status check classifies 303 as a non-nil error, and with one valid
target whose update answers 303 the run dies in log.Fatalf instead of
recording applied. -/
theorem c5_counterexample :
    HTTPStatusCodeCheck 303 =
      CheckResult.err "same branch name pattern already exists" ∧
    SetRuleset conflictApi (some fullRuleset) [repoAlpha] 0 =
      RunResult.fatalExit
        "Error applying branch protection to repo alpha: same branch name pattern already exists"
        [] [Event.rateQuery, Event.applyCall "alpha" "main" 0] := by
  decide

/-- C5 amended: an apply response with status 303 yields the non-nil
error "same branch name pattern already exists" from the status check,
and the task escalates it to a fatal process exit (log.Fatalf on
part_001 line 69): the outcome is not applied and the run halts. -/
theorem c5_benign_conflict_is_fatal (api : Api) (rl : RateLimitInfo)
    (r : Repository) (repoName branch : String)
    (ruleset : Protection) (req : ProtectionRequest) (now : Int)
    (hname : r.name = some repoName)
    (hbranch : r.defaultBranch = some branch)
    (hrl : api.rateLimits = Except.ok rl) (hrem : 1 ≤ rl.remaining)
    (hconv : convertProtectionToRequest (some ruleset) = some req)
    (hupd : api.updateBranchProtection repoName branch = Except.ok 303) :
    processRepo api (some ruleset) now (some r) =
      (TaskResult.fatal
        ("Error applying branch protection to repo " ++ repoName ++
          ": " ++ "same branch name pattern already exists"),
        [Event.rateQuery, Event.applyCall repoName branch now], now) := by
  have hck : checkAndHandleRateLimit api now = Except.ok (true, now) := by
    simp only [checkAndHandleRateLimit, hrl]
    rw [if_neg (by omega)]
  simp [processRepo, hname, hbranch, hck, hconv,
    setBranchProtectionRules, hupd, HTTPStatusCodeCheck]

/-- C5 witness: the amended theorem applied to the concrete 303
client. -/
theorem c5_benign_conflict_is_fatal_witness :
    processRepo conflictApi (some fullRuleset) 0
        (some { name := some "alpha", defaultBranch := some "main" }) =
      (TaskResult.fatal
        ("Error applying branch protection to repo " ++ "alpha" ++
          ": " ++ "same branch name pattern already exists"),
        [Event.rateQuery, Event.applyCall "alpha" "main" 0], 0) :=
  c5_benign_conflict_is_fatal conflictApi { remaining := 100, reset := 0 }
    { name := some "alpha", defaultBranch := some "main" } "alpha" "main"
    fullRuleset _ 0 rfl rfl rfl (by decide) rfl rfl

/-- C7: a target missing a required identifying field (nil repository,
nil name or nil default branch) is recorded as skipped-invalid, emits
no event at all (in particular no apply call), and the loop continues
with the remaining targets unchanged. -/
theorem c7_invalid_target_skipped (api : Api)
    (ruleset : Option Protection) (now : Int) (repo : Option Repository)
    (h : repo = none ∨
      ∃ r, repo = some r ∧ (r.name = none ∨ r.defaultBranch = none)) :
    processRepo api ruleset now repo =
      (TaskResult.outcome ApplyOutcome.skippedInvalid, [], now) ∧
    ∀ (rest : List (Option Repository)) (outs : List ApplyOutcome)
      (evs : List Event),
      SetRulesetGo api ruleset (repo :: rest) now outs evs =
        SetRulesetGo api ruleset rest now
          (outs ++ [ApplyOutcome.skippedInvalid]) evs := by
  have hstep : processRepo api ruleset now repo =
      (TaskResult.outcome ApplyOutcome.skippedInvalid, [], now) := by
    rcases h with h | ⟨r, hr, hcase⟩
    · simp [processRepo, h]
    · subst hr
      rcases hcase with hn | hd
      · cases hdb : r.defaultBranch <;> simp [processRepo, hn, hdb]
      · cases hnm : r.name <;> simp [processRepo, hnm, hd]
  refine ⟨hstep, ?_⟩
  intro rest outs evs
  simp [SetRulesetGo, hstep]

/-- C7 witness: the theorem applied to a concrete target with a nil
name. -/
theorem c7_invalid_target_skipped_witness :
    processRepo okApi (some fullRuleset) 5
        (some { name := none, defaultBranch := some "main" }) =
      (TaskResult.outcome ApplyOutcome.skippedInvalid, [], 5) :=
  (c7_invalid_target_skipped okApi (some fullRuleset) 5
      (some { name := none, defaultBranch := some "main" })
      (Or.inr ⟨{ name := none, defaultBranch := some "main" }, rfl,
        Or.inl rfl⟩)).1

/-- C8: for every valid target, the rate budget is queried immediately
before the mutating call — the event trace is exactly the rate query
followed by the apply call — and when the remaining budget is below
one, the apply call is issued no earlier than the reported reset time
plus the one-second safety margin. -/
theorem c8_rate_admission_before_apply (api : Api)
    (ruleset : Option Protection) (now : Int) (r : Repository)
    (repoName branch : String) (rl : RateLimitInfo)
    (hname : r.name = some repoName)
    (hbranch : r.defaultBranch = some branch)
    (hrl : api.rateLimits = Except.ok rl)
    (tr : TaskResult) (evs : List Event) (tEnd t : Int)
    (hrun : processRepo api ruleset now (some r) = (tr, evs, tEnd))
    (happly : Event.applyCall repoName branch t ∈ evs) :
    evs = [Event.rateQuery, Event.applyCall repoName branch t] ∧
    (rl.remaining < 1 → rl.reset + 1 ≤ t) := by
  have hck : checkAndHandleRateLimit api now =
      Except.ok (true,
        if rl.remaining < 1 then now + max (rl.reset - now + 1) 0
        else now) := by
    simp only [checkAndHandleRateLimit, hrl]
    by_cases hb : rl.remaining < 1
    · rw [if_pos hb, if_pos hb]
    · rw [if_neg hb, if_neg hb]
  set wake :=
    (if rl.remaining < 1 then now + max (rl.reset - now + 1) 0
      else now) with hwdef
  have hwake : rl.remaining < 1 → rl.reset + 1 ≤ wake := by
    intro hb
    rw [hwdef, if_pos hb]
    omega
  rcases hconv : convertProtectionToRequest ruleset with _ | req
  · have hpr : processRepo api ruleset now (some r) =
        (TaskResult.fatal "Protection object is nil",
          [Event.rateQuery], wake) := by
      simp [processRepo, hname, hbranch, hck, hconv]
    rw [hpr] at hrun
    injection hrun with h1 h23
    injection h23 with h2 h3
    subst h2
    exact absurd happly (by simp)
  · rcases hsbr : setBranchProtectionRules api repoName branch
        with e | mo
    · have hpr : processRepo api ruleset now (some r) =
          (TaskResult.fatal e,
            [Event.rateQuery, Event.applyCall repoName branch wake],
            wake) := by
        simp [processRepo, hname, hbranch, hck, hconv, hsbr]
      rw [hpr] at hrun
      injection hrun with h1 h23
      injection h23 with h2 h3
      subst h2
      rcases List.mem_cons.mp happly with hx | hx
      · exact absurd hx (by simp)
      · have hx2 := List.mem_singleton.mp hx
        injection hx2 with hxa hxb hxc
        subst hxc
        exact ⟨rfl, hwake⟩
    · have hpr : ∃ res : TaskResult,
          processRepo api ruleset now (some r) =
            (res,
              [Event.rateQuery, Event.applyCall repoName branch wake],
              wake) := by
        cases mo with
        | none =>
          exact ⟨TaskResult.outcome ApplyOutcome.applied,
            by simp [processRepo, hname, hbranch, hck, hconv, hsbr]⟩
        | some m =>
          exact ⟨TaskResult.fatal
            ("Error applying branch protection to repo " ++ repoName ++
              ": " ++ m),
            by simp [processRepo, hname, hbranch, hck, hconv, hsbr]⟩
      obtain ⟨res, hpr⟩ := hpr
      rw [hpr] at hrun
      injection hrun with h1 h23
      injection h23 with h2 h3
      subst h2
      rcases List.mem_cons.mp happly with hx | hx
      · exact absurd hx (by simp)
      · have hx2 := List.mem_singleton.mp hx
        injection hx2 with hxa hxb hxc
        subst hxc
        exact ⟨rfl, hwake⟩

/-- C8 witness: the theorem applied to an exhausted budget (remaining
0, reset at 50): the apply call is issued at time 51 = reset + margin. -/
theorem c8_rate_admission_before_apply_witness :
    ([Event.rateQuery, Event.applyCall "alpha" "main" 51] :
        List Event) =
      [Event.rateQuery, Event.applyCall "alpha" "main" 51] ∧
    ((0 : Int) < 1 → (50 : Int) + 1 ≤ 51) :=
  c8_rate_admission_before_apply exhaustedApi (some fullRuleset) 0
    { name := some "alpha", defaultBranch := some "main" } "alpha" "main"
    { remaining := 0, reset := 50 } rfl rfl rfl
    (TaskResult.outcome ApplyOutcome.applied)
    [Event.rateQuery, Event.applyCall "alpha" "main" 51] 51 51
    (by decide) (by decide)

end RepoProtectionSync
